import Mathlib

/-!
# Verification of the adaptive batch-insert engine (`src/data_loader/core.py`)

A shallow embedding of the data-loader's core: the adaptive batch controller
(`adaptive_batch_insert_with_ewma`), the transport encoder
(`insert_json_batch_with_compression`, `build_openjson_with_clause`,
`df_to_json_array`), and the per-batch transaction discipline
(`conn.execute` / `conn.commit`).

Modelling conventions:

* Python floats used only as tuning multipliers are embedded as exact
  rationals; `int(batch * 1.2)` and `int(batch * 0.8)` are embedded as the
  natural-number floors `6*batch/5` and `4*batch/5`, which agree with the
  IEEE-754 double computation for every realistic batch size (the relative
  float error of the constant is below a half-ulp of the product).
* Strings are modelled as `List Char`; bytes as `Fin 256`.
* A float cell of a DataFrame is modelled by the exact rational value of its
  double; the serializer renders it in positional decimal notation rounded
  to 10 decimal places (`double_precision=10`, the pandas `to_json`
  default), which is where the transport round-trip loses information.
* The Python `while` loop of `adaptive_batch_insert_with_ewma` is embedded
  as a step function on a loop state, driven by an oracle giving the outcome
  (success with elapsed time, or failure with an error message) of each
  attempted insert; `run` iterates the step.
-/

namespace DbLoader

/-! ## Character constants

Characters that are awkward to write literally are named here once. -/

def quoteC : Char := Char.ofNat 39

def dquoteC : Char := Char.ofNat 34

def backslashC : Char := Char.ofNat 92

def lbraceC : Char := Char.ofNat 123

def rbraceC : Char := Char.ofNat 125

def lbrackC : Char := Char.ofNat 91

def rbrackC : Char := Char.ofNat 93

def commaC : Char := Char.ofNat 44

def colonC : Char := Char.ofNat 58

def spaceC : Char := Char.ofNat 32

def dollarC : Char := Char.ofNat 36

def dotC : Char := Char.ofNat 46

def minusC : Char := Char.ofNat 45

def eqC : Char := Char.ofNat 61

/-! ## Decimal digits

`str(n)` / `f"{n}"` for a non-negative integer, and its parse. Used both by
the JSON value serializer and by the `NVARCHAR({size})` type formatter. -/

def digitChar (n : Nat) : Char := Char.ofNat (48 + n)

def natDigitsAux : Nat → Nat → List Char
  | 0, _ => []
  | fuel + 1, n =>
    if n < 10 then [digitChar n]
    else natDigitsAux fuel (n / 10) ++ [digitChar (n % 10)]

def natDigits (n : Nat) : List Char := natDigitsAux (n + 1) n

def isDigitC (c : Char) : Bool := 48 ≤ c.toNat && c.toNat ≤ 57

def digitsVal (l : List Char) : Nat :=
  l.foldl (fun a c => a * 10 + (c.toNat - 48)) 0

/-! ## Substring matching on error messages

`core.py` lines 307, 316-319: `err_msg = str(e).lower()` and
`any(keyword in err_msg for keyword in ["timeout", "request size",
"payload too large"])`. -/

def hasPre : List Char → List Char → Bool
  | [], _ => true
  | _ :: _, [] => false
  | p :: ps, c :: cs => p = c && hasPre ps cs

def hasSub (p : List Char) : List Char → Bool
  | [] => p.isEmpty
  | c :: cs => hasPre p (c :: cs) || hasSub p cs

/-- The error-classification of `adaptive_batch_insert_with_ewma` (core.py
lines 316-319): the lowercased error message contains one of the three
resource-exhaustion keywords. -/
def resourceErr (msg : List Char) : Bool :=
  let m := msg.map Char.toLower
  hasSub "timeout".data m || hasSub "request size".data m ||
    hasSub "payload too large".data m

/-! ## The adaptive batch controller

Shallow embedding of the loop of `adaptive_batch_insert_with_ewma`
(core.py lines 256-368) as a step function on a loop state, driven by an
outcome oracle for the attempted inserts. -/

/-- Configuration of one table's insert run: `total_rows = len(df)`,
`min_batch`, `max_batch`, the `fixed` flag parsed off the starting batch
string, and `target_seconds`. -/
structure LoopCfg where
  total : Nat
  minB : Nat
  maxB : Nat
  fixed : Bool
  target : ℚ
deriving DecidableEq

/-- Mutable state of the loop: `sent`, `batch`, `ewma_rows_per_sec`
(core.py lines 274, 278, 286). -/
structure LoopState where
  sent : Nat
  batch : Nat
  ewma : ℚ
deriving DecidableEq

/-- Outcome of one attempted `insert_json_batch_with_compression` call:
success with a raw wall-clock duration, or an exception with its message. -/
inductive StepOutcome where
  | ok (elapsedRaw : ℚ)
  | err (msg : List Char)

/-- core.py lines 277-278: `fixed_batch = starting_batch.startswith("=")`;
`batch = int(starting_batch.lstrip("="))`.  `none` models the `ValueError`
Python's `int` raises on a non-numeric remainder. -/
def parseStartingBatch (s : List Char) : Option (Bool × Nat) :=
  let fixed : Bool := match s with
    | c :: _ => c = eqC
    | [] => false
  let ds := s.dropWhile (fun c => c = eqC)
  if ds ≠ [] ∧ ds.all isDigitC then some (fixed, digitsVal ds) else none

/-- Initial loop state: `sent = 0` and `ewma_rows_per_sec = 0.0`
(core.py lines 274, 286) with the parsed starting batch size. -/
def initState (batch0 : Nat) : LoopState :=
  { sent := 0, batch := batch0, ewma := 0 }

/-- One shrink of the failure backoff, core.py line 312:
`batch = max(int(batch * dec_factor), min_batch)` with `dec_factor = 0.80`. -/
def failShrink (cfg : LoopCfg) (b : Nat) : Nat :=
  max (4 * b / 5) cfg.minB

/-- The `except` branch of the loop body (core.py lines 304-324): shrink
once, shrink a second time for resource-exhaustion errors, do not advance
`sent`, and retry. -/
def stepFail (cfg : LoopCfg) (s : LoopState) (msg : List Char) : LoopState :=
  let b1 := failShrink cfg s.batch
  let b2 := if resourceErr msg then failShrink cfg b1 else b1
  { s with batch := b2 }

/-- `elapsed = max(end_time - start_time, 0.001)` (core.py line 327). -/
def clampElapsed (elapsedRaw : ℚ) : ℚ := max elapsedRaw (1 / 1000)

/-- The success tail of the loop body (core.py lines 326-368): EWMA update
with `α = 0.25` and zero-test for the first measurement, cursor advance,
and the three-band adaptive resize, skipped when `fixed_batch`. -/
def stepOk (cfg : LoopCfg) (s : LoopState) (elapsedRaw : ℚ) : LoopState :=
  let take := min s.batch (cfg.total - s.sent)
  let elapsed := clampElapsed elapsedRaw
  let rps : ℚ := (take : ℚ) / elapsed
  let ewma' := if s.ewma = 0 then rps else (1 / 4) * rps + (3 / 4) * s.ewma
  let batch' :=
    if cfg.fixed then s.batch
    else if elapsed < (3 / 4) * cfg.target then min (6 * s.batch / 5) cfg.maxB
    else if elapsed > (3 / 2) * cfg.target then max (4 * s.batch / 5) cfg.minB
    else min (s.batch + max (s.batch / 20) 1000) cfg.maxB
  { sent := s.sent + take, batch := batch', ewma := ewma' }

/-- One iteration of `while sent < total_rows` (core.py line 293): when the
guard holds, dispatch on the outcome of the attempted insert; when it fails,
the loop has exited and the state is final. -/
def adaptiveStep (cfg : LoopCfg) (s : LoopState) (o : StepOutcome) : LoopState :=
  if s.sent < cfg.total then
    match o with
    | StepOutcome.ok e => stepOk cfg s e
    | StepOutcome.err msg => stepFail cfg s msg
  else s

/-- The loop state after `n` iterations, the outcome of the `i`-th attempted
insert being `oracle i`. -/
def adaptiveRun (cfg : LoopCfg) (batch0 : Nat) (oracle : Nat → StepOutcome) : Nat → LoopState
  | 0 => initState batch0
  | n + 1 => adaptiveStep cfg (adaptiveRun cfg batch0 oracle n) (oracle n)

/-- The default-configuration run of the source: `total_rows = 10`,
`min_batch = 5000`, `max_batch = 150000`, adaptive (not fixed),
`target_seconds = 3.0`. -/
def defaultCfg10 : LoopCfg :=
  { total := 10, minB := 5000, maxB := 150000, fixed := false, target := 3 }

/-- The fixed-batch variant of `defaultCfg10` (starting batch `"=10000"`). -/
def fixedCfg10 : LoopCfg :=
  { total := 10, minB := 5000, maxB := 150000, fixed := true, target := 3 }

/-- An insert step that raises a generic (non-resource-limit) exception on
every attempt. -/
def allFailOracle : Nat → StepOutcome := fun _ => StepOutcome.err "boom".data

/-- The configuration of the spec's Scenario B: a 1000-row batch against
`target_seconds = 3.0`. -/
def scenBCfg : LoopCfg :=
  { total := 5000, minB := 10, maxB := 150000, fixed := false, target := 3 }

/-- The spec's resize rule on success, stated in the spec's own words
(§4.1 / §8): `elapsed < 0.75·target → min(int(batch·1.2), max_batch)`;
`elapsed > 1.5·target → max(int(batch·0.8), min_batch)`; otherwise
`min(batch + max(batch/20, 1000), max_batch)`.  To be compared with the
transition of `stepOk`, which is embedded from the source. -/
def specSuccessResize (batch minB maxB : Nat) (elapsed target : ℚ) : Nat :=
  if elapsed < (3 / 4) * target then min (6 * batch / 5) maxB
  else if elapsed > (3 / 2) * target then max (4 * batch / 5) minB
  else min (batch + max (batch / 20) 1000) maxB

/-! ## The OPENJSON WITH clause (`build_openjson_with_clause`, core.py 167-199) -/

/-- First-match association lookup, the embedding of a Python `dict` access
(`dtypes_cfg[col]`, `max_text_lens.get(col, d)`, `MAP.get(key)`). -/
def assocLookup {α : Type} (k : String) : List (String × α) → Option α
  | [] => none
  | (k', v) :: t => if k = k' then some v else assocLookup k t

/-- core.py lines 35-47: SQL Server types for the OPENJSON WITH clause. -/
def OPENJSON_SQL_TYPE_MAP : List (String × String) :=
  [("INT", "INT"), ("INTEGER", "INT"), ("FLOAT", "FLOAT"), ("DOUBLE", "FLOAT"),
   ("NUMERIC", "NUMERIC(18,4)"), ("DECIMAL", "NUMERIC(18,4)"),
   ("TEXT", "NVARCHAR(MAX)"), ("STRING", "NVARCHAR(MAX)"),
   ("DATE", "DATE"), ("DATETIME", "DATETIME2"), ("TIMESTAMP", "DATETIME2")]

/-- core.py lines 177-189: the length-based NVARCHAR fallback, with
`MAX_FIXED_LENGTH = 4000` (line 49). -/
def nvarcharFor (size : Nat) : String :=
  if size ≤ 4000 then "NVARCHAR(" ++ String.mk (natDigits size) ++ ")"
  else "NVARCHAR(MAX)"

/-- Python's `str.upper()` restricted to what the dtype strings use
(ASCII): uppercase each character. -/
def toUpperStr (s : String) : String := String.mk (s.data.map Char.toUpper)

/-- The per-column type resolution of `build_openjson_with_clause`
(core.py lines 172-189): configured dtype uppercased and looked up in
`OPENJSON_SQL_TYPE_MAP`; on a miss — or with no configured dtype — the
inferred-length NVARCHAR fallback with default size 1. -/
def openjsonSqlType (dtypes : List (String × String)) (maxLens : List (String × Nat))
    (col : String) : String :=
  match assocLookup col dtypes with
  | some dtype =>
    match assocLookup (toUpperStr dtype) OPENJSON_SQL_TYPE_MAP with
    | some t => t
    | none => nvarcharFor ((assocLookup col maxLens).getD 1)
  | none => nvarcharFor ((assocLookup col maxLens).getD 1)

/-- core.py line 192: `escaped_col = col.replace("]", "]]")`. -/
def escapeRBrack (l : List Char) : List Char :=
  l.flatMap (fun c => if c = rbrackC then [rbrackC, rbrackC] else [c])

/-- core.py line 193: one generated line
`[{escaped_col}] {sql_type} '$.{col}'` of the WITH clause. -/
def clauseLine (col ty : List Char) : List Char :=
  lbrackC :: (escapeRBrack col ++ [rbrackC, spaceC] ++ ty ++
    [spaceC, quoteC, dollarC, dotC] ++ col ++ [quoteC])

/-- core.py line 199: the separator `",\n        "` joining the lines. -/
def withClauseSep : List Char := commaC :: Char.ofNat 10 :: List.replicate 8 spaceC

/-- core.py lines 167-199: `build_openjson_with_clause`.  `none` embeds the
`ValueError` raised on an empty column list. -/
def build_openjson_with_clause (dtypes : List (String × String))
    (maxLens : List (String × Nat)) (cols : List String) : Option (List Char) :=
  if cols = [] then none
  else some (List.intercalate withClauseSep
    (cols.map (fun col => clauseLine col.data (openjsonSqlType dtypes maxLens col).data)))

/-! ### A syntactic well-formedness checker for one clause line

The grammar a T-SQL reader imposes on one generated line:
a bracket-delimited identifier in which a literal `]` is written `]]`, a
space, a type token free of spaces, a space, and a single-quoted literal in
which a literal quote is written `''` and whose closing quote ends the
line. -/

def slashC : Char := Char.ofNat 47

def zeroC : Char := Char.ofNat 48

/-- One cell value of a serialized record. -/
inductive JVal where
  | str (s : String)
  | int (n : Int)
  | bool (b : Bool)
  | null
  | float (x : ℚ)
deriving DecidableEq

def hexDigitChar (n : Nat) : Char :=
  if n < 10 then Char.ofNat (48 + n) else Char.ofNat (87 + n)

/-- JSON string-character escaping as emitted by the serializer. -/
def jsonEscChar (c : Char) : List Char :=
  if c = dquoteC then [backslashC, dquoteC]
  else if c = backslashC then [backslashC, backslashC]
  else if c = slashC then [backslashC, slashC]
  else if c.toNat = 8 then [backslashC, Char.ofNat 98]
  else if c.toNat = 9 then [backslashC, Char.ofNat 116]
  else if c.toNat = 10 then [backslashC, Char.ofNat 110]
  else if c.toNat = 12 then [backslashC, Char.ofNat 102]
  else if c.toNat = 13 then [backslashC, Char.ofNat 114]
  else if c.toNat < 32 then
    [backslashC, Char.ofNat 117, Char.ofNat 48, Char.ofNat 48,
     hexDigitChar (c.toNat / 16), hexDigitChar (c.toNat % 16)]
  else [c]

def encodeJsonStr (s : String) : List Char :=
  dquoteC :: (s.data.flatMap jsonEscChar ++ [dquoteC])

def encodeInt (n : Int) : List Char :=
  if n < 0 then minusC :: natDigits n.natAbs else natDigits n.toNat

/-- `⌊x * 10^10 + 1/2⌋` on the exact rational value of the double: the
10-decimal-place rounding `to_json` applies to float cells
(`double_precision=10`, the pandas default; the exact-half case of the
serializer's digit conversion is immaterial to anything proved here). -/
def roundTenDP (x : ℚ) : Int :=
  Int.floor (x * 10000000000 + 1 / 2)

/-- The ten decimal digits (most significant first) of `fp < 10^10`. -/
def fracDigits10 (fp : Nat) : List Char :=
  (List.range 10).map (fun i => digitChar (fp / 10 ^ (9 - i) % 10))

/-- Strip trailing zero digits. -/
def dropTrail (l : List Char) : List Char :=
  (l.reverse.dropWhile (fun c => c == zeroC)).reverse

/-- Strip trailing zero digits but keep at least one (the serializer always
emits a fractional digit, e.g. `1.0`). -/
def trimZeros (l : List Char) : List Char :=
  if dropTrail l = [] then [zeroC] else dropTrail l

/-- Positional decimal rendering of the rounded value `n / 10^10`, as the
serializer emits float cells: optional sign, integer part, `.`, fractional
digits with trailing zeros trimmed. -/
def encodeFloatInt (n : Int) : List Char :=
  (if n < 0 then [minusC] else []) ++
    natDigits (n.natAbs / 10000000000) ++
    dotC :: trimZeros (fracDigits10 (n.natAbs % 10000000000))

def encodeFloat (x : ℚ) : List Char := encodeFloatInt (roundTenDP x)

def litTrue : List Char := "true".data

def litFalse : List Char := "false".data

def litNull : List Char := "null".data

def encodeJVal : JVal → List Char
  | JVal.str s => encodeJsonStr s
  | JVal.int n => encodeInt n
  | JVal.bool b => if b then litTrue else litFalse
  | JVal.null => litNull
  | JVal.float x => encodeFloat x

def encodeField (f : String × JVal) : List Char :=
  encodeJsonStr f.1 ++ colonC :: encodeJVal f.2

def encodeRecord (r : List (String × JVal)) : List Char :=
  lbraceC :: (List.intercalate [commaC] (r.map encodeField) ++ [rbraceC])

/-- `df.to_json(orient="records", ...)`: the array of records, one per row,
in column order (core.py 162-164). -/
def df_to_json_array (b : List (List (String × JVal))) : List Char :=
  lbrackC :: (List.intercalate [commaC] (b.map encodeRecord) ++ [rbrackC])

/-! ### The JSON parse used by the documented inverse decode -/

/-- The continuation after a serialized value starts with neither a digit
nor a dot (in a record it is `,` or the closing brace), so the number
parser stops exactly at the value's end. -/
def notNumCont (l : List Char) : Prop :=
  ∀ d, l.head? = some d → isDigitC d = false ∧ d ≠ dotC

structure TxDb where
  committed : Nat
  pending : Nat
deriving DecidableEq

/-- The all-or-nothing insert-select statement of one batch. -/
def dbExecInsert (db : TxDb) (rows : Nat) : TxDb :=
  { db with pending := db.pending + rows }

/-- `conn.commit()`. -/
def dbCommit (db : TxDb) : TxDb :=
  { committed := db.committed + db.pending, pending := 0 }

/-- A fatal error mid-table: the open transaction is rolled back; committed
rows are durable and stay visible. -/
def dbAbort (db : TxDb) : TxDb :=
  { db with pending := 0 }

/-- The rows visible to other readers / after the run: the committed ones. -/
def visibleRows (db : TxDb) : Nat := db.committed

/-- The transactional tail of `insert_json_batch_with_compression`
(core.py lines 252-253): `conn.execute(text(sql)); conn.commit()`. -/
def insertBatchTx (db : TxDb) (rows : Nat) : TxDb :=
  dbCommit (dbExecInsert db rows)

/-- The table's insert phase up to a fatal error: the successful batches in
order, each through `insertBatchTx`, then the abort of the failing
statement. -/
def insertPhaseThenFatal (db : TxDb) (batches : List Nat) : TxDb :=
  dbAbort (batches.foldl insertBatchTx db)

/-! # Theorems -/

/-! ## Decimal digit lemmas -/

@[simp] theorem stepFail_sent (cfg : LoopCfg) (s : LoopState) (m : List Char) :
    (stepFail cfg s m).sent = s.sent := rfl

@[simp] theorem stepFail_ewma (cfg : LoopCfg) (s : LoopState) (m : List Char) :
    (stepFail cfg s m).ewma = s.ewma := rfl

theorem stepFail_batch (cfg : LoopCfg) (s : LoopState) (m : List Char) :
    (stepFail cfg s m).batch =
      if resourceErr m then failShrink cfg (failShrink cfg s.batch)
      else failShrink cfg s.batch := rfl

theorem stepOk_sent (cfg : LoopCfg) (s : LoopState) (e : ℚ) :
    (stepOk cfg s e).sent = s.sent + min s.batch (cfg.total - s.sent) := rfl

theorem stepOk_batch (cfg : LoopCfg) (s : LoopState) (e : ℚ) :
    (stepOk cfg s e).batch =
      if cfg.fixed then s.batch
      else if clampElapsed e < (3 / 4) * cfg.target then min (6 * s.batch / 5) cfg.maxB
      else if clampElapsed e > (3 / 2) * cfg.target then max (4 * s.batch / 5) cfg.minB
      else min (s.batch + max (s.batch / 20) 1000) cfg.maxB := rfl

theorem stepOk_ewma (cfg : LoopCfg) (s : LoopState) (e : ℚ) :
    (stepOk cfg s e).ewma =
      if s.ewma = 0 then ((min s.batch (cfg.total - s.sent) : Nat) : ℚ) / clampElapsed e
      else (1 / 4) * (((min s.batch (cfg.total - s.sent) : Nat) : ℚ) / clampElapsed e) +
        (3 / 4) * s.ewma := rfl

theorem adaptiveStep_ok (cfg : LoopCfg) (s : LoopState) (e : ℚ)
    (h : s.sent < cfg.total) :
    adaptiveStep cfg s (StepOutcome.ok e) = stepOk cfg s e := by
  unfold adaptiveStep
  rw [if_pos h]

theorem adaptiveStep_err (cfg : LoopCfg) (s : LoopState) (m : List Char)
    (h : s.sent < cfg.total) :
    adaptiveStep cfg s (StepOutcome.err m) = stepFail cfg s m := by
  unfold adaptiveStep
  rw [if_pos h]

theorem adaptiveStep_done (cfg : LoopCfg) (s : LoopState) (o : StepOutcome)
    (h : ¬ s.sent < cfg.total) : adaptiveStep cfg s o = s := by
  unfold adaptiveStep
  rw [if_neg h]

/-! ## C1 — bounded retries and row-by-row fallback -/

/-- C1: the claim says that after `max_retries = 5` consecutive bulk failures
at one position the engine performs exactly one row-by-row fallback and never
issues a sixth bulk attempt there.  The code has no retry counter and no
fallback: evaluating the embedded loop on the default configuration with an
insert step that always raises a generic error, after five consecutive
failures at position 0 the cursor is still 0, the loop guard still holds, and
the sixth iteration is again a bulk attempt of the slice starting at
position 0 (with the batch size pinned at `min_batch = 5000`); the state
after that sixth bulk attempt is again a retry at position 0. -/
theorem c1_sixth_bulk_attempt :
    (adaptiveRun defaultCfg10 10000 allFailOracle 5).sent = 0 ∧
    (adaptiveRun defaultCfg10 10000 allFailOracle 5).sent < defaultCfg10.total ∧
    (adaptiveRun defaultCfg10 10000 allFailOracle 5).batch = 5000 ∧
    adaptiveRun defaultCfg10 10000 allFailOracle 6 =
      stepFail defaultCfg10 (adaptiveRun defaultCfg10 10000 allFailOracle 5) "boom".data := by
  refine ⟨by decide, by decide, by decide, by decide⟩

/-! ## C2 — non-termination under persistent failure -/

/-- C2: the claim says the per-table insert loop always terminates, in
particular that persistent failure at one position with the batch pinned at
`min_batch` cannot make it run forever.  In the embedded loop with the
default configuration and an always-failing insert step, for every `n` the
cursor is still at 0 after `n` iterations and the loop guard
`sent < total_rows` still holds — the loop never exits, no row is ever
accepted or rejected, and no fatal error is raised. -/
theorem c2_infinite_retry_loop :
    ∀ n : Nat, (adaptiveRun defaultCfg10 10000 allFailOracle n).sent = 0 ∧
      (adaptiveRun defaultCfg10 10000 allFailOracle n).sent < defaultCfg10.total := by
  intro n
  induction n with
  | zero => exact ⟨rfl, by decide⟩
  | succ n ih =>
    obtain ⟨h0, hlt⟩ := ih
    have hstep : adaptiveRun defaultCfg10 10000 allFailOracle (n + 1) =
        stepFail defaultCfg10 (adaptiveRun defaultCfg10 10000 allFailOracle n) "boom".data := by
      simp [adaptiveRun, adaptiveStep, hlt, allFailOracle]
    rw [hstep]
    exact ⟨by rw [stepFail_sent, h0], by rw [stepFail_sent, h0]; decide⟩

/-! ## C3 — the fixed flag and batch-size invariance -/

/-- C3 counterexample: with the fixed flag set (starting batch `"=10000"`)
the claim says `batch_size` never changes on any transition; but on a failed
step the embedded code still shrinks the batch from 10000 to
`max(int(10000·0.8), 5000) = 8000`. -/
theorem c3_counterexample :
    parseStartingBatch "=10000".data = some (true, 10000) ∧
    fixedCfg10.fixed = true ∧
    (adaptiveStep fixedCfg10 (initState 10000) (StepOutcome.err "boom".data)).batch = 8000 ∧
    (initState 10000).batch = 10000 := by
  refine ⟨?_, by decide, by decide, by decide⟩
  decide

/-- C3 amended: with the fixed flag set, `batch_size` is invariant across
every *success* transition; on a *failure* transition it still shrinks by
`max(int(batch·0.8), min_batch)` — applied twice when the error matches the
resource-exhaustion keywords — exactly as in the non-fixed run. -/
theorem c3_fixed_success_invariant (cfg : LoopCfg) (s : LoopState)
    (hfix : cfg.fixed = true) (e : ℚ) (msg : List Char) :
    (adaptiveStep cfg s (StepOutcome.ok e)).batch = s.batch ∧
    (adaptiveStep cfg s (StepOutcome.err msg)).batch =
      (if s.sent < cfg.total then
        (if resourceErr msg then failShrink cfg (failShrink cfg s.batch)
         else failShrink cfg s.batch)
       else s.batch) := by
  constructor
  · by_cases h : s.sent < cfg.total
    · rw [adaptiveStep_ok cfg s e h, stepOk_batch, hfix]
      simp
    · rw [adaptiveStep_done cfg s _ h]
  · by_cases h : s.sent < cfg.total
    · rw [adaptiveStep_err cfg s msg h, if_pos h, stepFail_batch]
    · rw [adaptiveStep_done cfg s _ h, if_neg h]

/-- Witness for `c3_fixed_success_invariant` at the fixed default
configuration, a successful 1-second step and a generic error. -/
theorem c3_fixed_success_invariant_witness :
    fixedCfg10.fixed = true ∧
    (adaptiveStep fixedCfg10 (initState 10000) (StepOutcome.ok 1)).batch =
      (initState 10000).batch :=
  ⟨by decide, (c3_fixed_success_invariant fixedCfg10 (initState 10000) (by decide) 1
      "boom".data).1⟩

/-! ## C4 — the batch-size bounds invariant -/

/-- C4 counterexample: the claim asserts
`min_batch ≤ batch_size ≤ max_batch` after initialization for *every*
starting batch size string; but the code never clamps the parsed starting
size, so with starting string `"1"` and the default `min_batch = 5000` the
state right after initialization already violates the lower bound. -/
theorem c4_counterexample :
    parseStartingBatch "1".data = some (false, 1) ∧
    ¬ (defaultCfg10.minB ≤ (initState 1).batch) := by
  exact ⟨by decide, by decide⟩

/-- C4 amended: provided the parsed starting batch size already lies within
`[min_batch, max_batch]`, the invariant `min_batch ≤ batch_size ≤ max_batch`
holds after initialization and after every success or failure transition of
the run, for every outcome sequence. -/
theorem c4_batch_bounds (cfg : LoopCfg) (batch0 : Nat)
    (h1 : cfg.minB ≤ batch0) (h2 : batch0 ≤ cfg.maxB)
    (oracle : Nat → StepOutcome) (n : Nat) :
    cfg.minB ≤ (adaptiveRun cfg batch0 oracle n).batch ∧
      (adaptiveRun cfg batch0 oracle n).batch ≤ cfg.maxB := by
  have hmm : cfg.minB ≤ cfg.maxB := le_trans h1 h2
  induction n with
  | zero => exact ⟨h1, h2⟩
  | succ n ih =>
    obtain ⟨hl, hr⟩ := ih
    show cfg.minB ≤ (adaptiveStep cfg (adaptiveRun cfg batch0 oracle n) (oracle n)).batch ∧
      (adaptiveStep cfg (adaptiveRun cfg batch0 oracle n) (oracle n)).batch ≤ cfg.maxB
    by_cases h : (adaptiveRun cfg batch0 oracle n).sent < cfg.total
    · rcases oracle n with e | msg
      · rw [adaptiveStep_ok cfg _ e h, stepOk_batch]
        split_ifs <;> omega
      · rw [adaptiveStep_err cfg _ msg h, stepFail_batch]
        unfold failShrink
        split_ifs <;> omega
    · rw [adaptiveStep_done cfg _ _ h]
      exact ⟨hl, hr⟩

/-- Witness for `c4_batch_bounds`: three all-failing iterations of the
default configuration stay within `[5000, 150000]`. -/
theorem c4_batch_bounds_witness :
    defaultCfg10.minB ≤ 10000 ∧ 10000 ≤ defaultCfg10.maxB ∧
    (defaultCfg10.minB ≤ (adaptiveRun defaultCfg10 10000 allFailOracle 3).batch ∧
      (adaptiveRun defaultCfg10 10000 allFailOracle 3).batch ≤ defaultCfg10.maxB) :=
  ⟨by decide, by decide,
    c4_batch_bounds defaultCfg10 10000 (by decide) (by decide) allFailOracle 3⟩

/-! ## C8 — the resize formulas on success -/

/-- C8: on every successful step with the fixed flag unset, the next batch
size computed by the embedded code equals the spec's resize rule
`specSuccessResize` applied to the clamped elapsed time; and (Scenario B) a
1000-row batch completing in 1.0 s against `target_seconds = 3.0` yields
next size `min(1200, max_batch) = 1200`. -/
theorem c8_success_resize (cfg : LoopCfg) (s : LoopState) (eRaw : ℚ)
    (hfix : cfg.fixed = false) (hsent : s.sent < cfg.total) :
    (adaptiveStep cfg s (StepOutcome.ok eRaw)).batch =
      specSuccessResize s.batch cfg.minB cfg.maxB (clampElapsed eRaw) cfg.target ∧
    (adaptiveStep scenBCfg { sent := 0, batch := 1000, ewma := 0 }
        (StepOutcome.ok 1)).batch = 1200 := by
  constructor
  · rw [adaptiveStep_ok cfg s eRaw hsent, stepOk_batch, hfix]
    simp only [Bool.false_eq_true, if_false]
    rfl
  · have h1 : clampElapsed 1 = 1 := by
      unfold clampElapsed
      rw [max_eq_left (by norm_num)]
    rw [adaptiveStep_ok _ _ _ (by decide), stepOk_batch, h1]
    norm_num [scenBCfg]

/-- Witness for `c8_success_resize` at the Scenario B configuration. -/
theorem c8_success_resize_witness :
    scenBCfg.fixed = false ∧ (0 : Nat) < scenBCfg.total ∧
    (adaptiveStep scenBCfg { sent := 0, batch := 1000, ewma := 0 }
        (StepOutcome.ok 1)).batch = 1200 :=
  ⟨by decide, by decide,
    (c8_success_resize scenBCfg { sent := 0, batch := 1000, ewma := 0 } 1
      (by decide) (by decide)).2⟩

/-! ## C9 — the EWMA update -/

/-- C9: on a successful step that takes at least one row, the EWMA update of
the embedded code is: the raw rows-per-second of the batch (rows taken
divided by the elapsed time floored to 0.001 s) when this is the first
measurement (`ewma = 0`), and `0.25·x + 0.75·ewma` afterwards; the EWMA is
strictly positive after any success (so the zero test really does
distinguish the first successful batch), and failure transitions leave it
unchanged. -/
theorem c9_ewma_update (cfg : LoopCfg) (s : LoopState) (eRaw : ℚ)
    (hsent : s.sent < cfg.total)
    (htake : 1 ≤ min s.batch (cfg.total - s.sent)) :
    (s.ewma = 0 → (adaptiveStep cfg s (StepOutcome.ok eRaw)).ewma =
      ((min s.batch (cfg.total - s.sent) : Nat) : ℚ) / clampElapsed eRaw) ∧
    (s.ewma ≠ 0 → (adaptiveStep cfg s (StepOutcome.ok eRaw)).ewma =
      (1 / 4) * (((min s.batch (cfg.total - s.sent) : Nat) : ℚ) / clampElapsed eRaw) +
        (3 / 4) * s.ewma) ∧
    (0 ≤ s.ewma → 0 < (adaptiveStep cfg s (StepOutcome.ok eRaw)).ewma) ∧
    (∀ msg, (adaptiveStep cfg s (StepOutcome.err msg)).ewma = s.ewma) := by
  have hclamp : 0 < clampElapsed eRaw := by
    have : (0 : ℚ) < 1 / 1000 := by norm_num
    exact lt_of_lt_of_le this (le_max_right _ _)
  have hrps : 0 < ((min s.batch (cfg.total - s.sent) : Nat) : ℚ) / clampElapsed eRaw := by
    apply div_pos _ hclamp
    exact_mod_cast Nat.lt_of_lt_of_le Nat.zero_lt_one htake
  refine ⟨?_, ?_, ?_, ?_⟩
  · intro h0
    rw [adaptiveStep_ok cfg s eRaw hsent, stepOk_ewma, if_pos h0]
  · intro h0
    rw [adaptiveStep_ok cfg s eRaw hsent, stepOk_ewma, if_neg h0]
  · intro hnn
    rw [adaptiveStep_ok cfg s eRaw hsent, stepOk_ewma]
    by_cases h0 : s.ewma = 0
    · rw [if_pos h0]
      exact hrps
    · rw [if_neg h0]
      have hpos : 0 < s.ewma := lt_of_le_of_ne hnn (Ne.symm h0)
      positivity
  · intro msg
    by_cases h : s.sent < cfg.total
    · rw [adaptiveStep_err cfg s msg h, stepFail_ewma]
    · rw [adaptiveStep_done cfg s _ h]

/-! ## SQL quote-escaping lemmas -/

theorem stringMk_data (s : String) : String.mk s.data = s := rfl

theorem df_to_json_array_len (b : List (List (String × JVal))) :
    (df_to_json_array b).length =
      (List.intercalate [commaC] (b.map encodeRecord)).length + 2 := by
  show (lbrackC :: (List.intercalate [commaC] (b.map encodeRecord) ++ [rbrackC])).length = _
  simp only [List.length_cons, List.length_append, List.length_singleton, List.length_nil]

/-- C5 counterexample: the claim says all of a table's batches commit within
a single transaction scope, so that a fatal error mid-table leaves none of
the previously inserted batches visible.  In the embedded transaction model
of `insert_json_batch_with_compression` — which commits after every batch —
one successful 5-row batch followed by a fatal error leaves 5 rows visible,
not 0. -/
theorem c5_counterexample :
    visibleRows (insertPhaseThenFatal { committed := 0, pending := 0 } [5]) = 5 ∧
    (5 : Nat) ≠ 0 := by
  exact ⟨rfl, by decide⟩

/-- C5 amended: each batch commits in its own transaction immediately after
its statement executes (`conn.execute(...); conn.commit()`), so a fatal
error mid-table rolls back only the failing statement: every previously
completed batch of that table remains visible, their row counts summing up,
and each batch leaves no transaction open. -/
theorem c5_per_batch_commit (db : TxDb) (batches : List Nat)
    (hp : db.pending = 0) :
    visibleRows (insertPhaseThenFatal db batches) = db.committed + batches.sum ∧
    (∀ rows, (insertBatchTx db rows).pending = 0) := by
  constructor
  · induction batches generalizing db with
    | nil =>
      simp [insertPhaseThenFatal, dbAbort, visibleRows]
    | cons b bs ih =>
      have hstep : insertBatchTx db b =
          { committed := db.committed + (db.pending + b), pending := 0 } := rfl
      show visibleRows (dbAbort (List.foldl insertBatchTx (insertBatchTx db b) bs)) = _
      rw [hstep]
      have := ih { committed := db.committed + (db.pending + b), pending := 0 } rfl
      rw [insertPhaseThenFatal] at this
      rw [this]
      simp [hp, List.sum_cons]
      omega
  · intro rows
    rfl

/-- Witness for `c5_per_batch_commit`: two committed batches of 5 and 7
rows leave 12 rows visible after the fatal error. -/
theorem c5_per_batch_commit_witness :
    ({ committed := 0, pending := 0 } : TxDb).pending = 0 ∧
    visibleRows (insertPhaseThenFatal { committed := 0, pending := 0 } [5, 7]) =
      ({ committed := 0, pending := 0 } : TxDb).committed + [5, 7].sum :=
  ⟨rfl, (c5_per_batch_commit { committed := 0, pending := 0 } [5, 7] rfl).1⟩

/-! ## C7 — unrecognized configured types -/

/-- C7 counterexample: the claim says a column whose configured type is not
a recognized semantic type name is assigned an *unbounded* text type.  For
a column `x` configured as `BOOL` with no inferred text length, the
embedded `build_openjson_with_clause` type resolution assigns the bounded
type `NVARCHAR(1)`, not the unbounded `NVARCHAR(MAX)`. -/
theorem c7_counterexample :
    openjsonSqlType [("x", "BOOL")] [] "x" = "NVARCHAR(1)" ∧
    ("NVARCHAR(1)" : String) ≠ "NVARCHAR(MAX)" := by
  exact ⟨by decide, by decide⟩

/-- C7 amended: a column whose configured type misses
`OPENJSON_SQL_TYPE_MAP` falls back to the inferred-length NVARCHAR sizing —
bounded `NVARCHAR(size)` with the size defaulting to 1, unbounded
`NVARCHAR(MAX)` only above the 4000 ceiling — rather than raising an
error (the clause still builds whenever the column list is non-empty). -/
theorem c7_unrecognized_fallback (dtypes : List (String × String))
    (maxLens : List (String × Nat)) (col : String) (dt : String)
    (cols : List String)
    (h1 : assocLookup col dtypes = some dt)
    (h2 : assocLookup (toUpperStr dt) OPENJSON_SQL_TYPE_MAP = none)
    (hcols : cols ≠ []) :
    openjsonSqlType dtypes maxLens col =
      nvarcharFor ((assocLookup col maxLens).getD 1) ∧
    (build_openjson_with_clause dtypes maxLens cols).isSome = true := by
  constructor
  · simp only [openjsonSqlType, h1, h2]
  · unfold build_openjson_with_clause
    rw [if_neg hcols]
    rfl

/-- Witness for `c7_unrecognized_fallback` at the `BOOL`-configured column
of the counterexample. -/
theorem c7_unrecognized_fallback_witness :
    assocLookup "x" [("x", "BOOL")] = some "BOOL" ∧
    assocLookup (toUpperStr "BOOL") OPENJSON_SQL_TYPE_MAP = none ∧
    (["x"] : List String) ≠ [] ∧
    openjsonSqlType [("x", "BOOL")] [] "x" =
      nvarcharFor ((assocLookup "x" ([] : List (String × Nat))).getD 1) :=
  ⟨by decide, by decide, by decide,
    (c7_unrecognized_fallback [("x", "BOOL")] [] "x" "BOOL" ["x"]
      (by decide) (by decide) (by decide)).1⟩

/-! ## C10 — the NVARCHAR(1) fallback for untyped, unmeasured columns -/

/-- C10: a column with neither a configured per-column type nor an inferred
maximum text length is assigned the bounded type `NVARCHAR(1)` in the
generated mapping clause — the fallback size defaults to 1, not to an
unbounded text type. -/
theorem c10_default_nvarchar1 (dtypes : List (String × String))
    (maxLens : List (String × Nat)) (col : String)
    (h1 : assocLookup col dtypes = none)
    (h2 : assocLookup col maxLens = none) :
    openjsonSqlType dtypes maxLens col = "NVARCHAR(1)" := by
  unfold openjsonSqlType
  rw [h1, h2]
  decide

/-- Witness for `c10_default_nvarchar1`: an unconfigured, unmeasured column
`x` really gets `NVARCHAR(1)`. -/
theorem c10_default_nvarchar1_witness :
    assocLookup "x" ([] : List (String × String)) = none ∧
    assocLookup "x" ([] : List (String × Nat)) = none ∧
    openjsonSqlType [] [] "x" = "NVARCHAR(1)" :=
  ⟨rfl, rfl, c10_default_nvarchar1 [] [] "x" rfl rfl⟩

/-- Witness for `c9_ewma_update`: the first successful batch of the default
configuration, 10 rows in 2 s, sets the EWMA to the raw 5 rows/s. -/
theorem c9_ewma_update_witness :
    (0 : Nat) < defaultCfg10.total ∧
    1 ≤ min (initState 10000).batch (defaultCfg10.total - (initState 10000).sent) ∧
    ((initState 10000).ewma = 0 →
      (adaptiveStep defaultCfg10 (initState 10000) (StepOutcome.ok 2)).ewma =
        ((min (initState 10000).batch (defaultCfg10.total - (initState 10000).sent) : Nat) : ℚ) /
          clampElapsed 2) :=
  ⟨by decide, by decide,
    (c9_ewma_update defaultCfg10 (initState 10000) 2 (by decide) (by decide)).1⟩

end DbLoader
